import Mathlib

/-!
Verification development for the schwab-mcp worker.

Shallow embedding of the parts of the repository that the claims of the
specification concern:

- `src/shared/kvTokenStore.ts` (key derivation, KV-backed load/save,
  migrateIfNeeded);
- the POST /authorize of the OAuth handler (approval submission) and
  GET /callback endpoints, with the external SDK capabilities (state codec,
  code exchange, client construction, identity lookup, authorization
  completion) modelled as oracle outcomes and the downstream effects
  recorded in an event trace;
- `src/index.ts` MyMCP.init ordering of the token-manager load relative to
  API-client construction, and the tiered recovery of MyMCP.onReconnect.

JavaScript `string | undefined` values are modelled as `Option String`, and
the pervasive `if (x)` truthiness tests on them as `truthy` below (false
exactly on `undefined` and on the empty string). Fallible JS code is
modelled with `Except`: a `.error` value is a thrown/rejected error, a
`.ok` value a normal return. Token payloads are opaque to every routine
modelled here, so `TokenData` is an abstract string.
-/

namespace SchwabMCP

/-- JS truthiness of a `string | undefined` value: false for `undefined`
and for the empty string, true for every non-empty string. -/
def truthy : Option String → Bool
  | none => false
  | some s => !(s == "")

/-- Opaque token payload (access token, refresh token, expiry serialized);
no routine modelled here inspects it. -/
abbrev TokenData := String

/-- `TokenIdentifiers` from kvTokenStore.ts: a resolved Schwab user id
(canonical) and an OAuth client id (fallback), both optional. -/
structure TokenIdentifiers where
  schwabUserId : Option String := none
  clientId : Option String := none
deriving DecidableEq

/-- Error thrown by `generateKey` when neither identifier is usable
(the thrown Error with message `No identifier provided for token key`). -/
inductive KeyError
  | identityMissing
deriving DecidableEq

/-- Storage key for an identifier: TOKEN_KEY_PREFIX ++ id. The prefix
constant lives in shared/constants.ts; per the repository docs the key
pattern is `token:{id}`. -/
def tokenKey (id : String) : String := "token:" ++ id

/-- kvTokenStore.ts `generateKey`: prefer `schwabUserId` when truthy, else
`clientId` when truthy, else throw. Mirrors the JS truthiness tests
`if (ids.schwabUserId)` / `if (ids.clientId)`. -/
def generateKey (ids : TokenIdentifiers) : Except KeyError String :=
  if truthy ids.schwabUserId then .ok (tokenKey (ids.schwabUserId.getD ("")))
  else if truthy ids.clientId then .ok (tokenKey (ids.clientId.getD ("")))
  else .error .identityMissing

/-- The KV namespace, modelled as an association list; the most recent
write for a key shadows older entries (last-write-wins reads). The
`expirationTtl` passed on every put only affects retention, which no claim
concerns, so it is not modelled. -/
abbrev KV := List (String × TokenData)

/-- The `kv.get(key, json)` read. -/
def kvGet (kv : KV) (k : String) : Option TokenData :=
  match kv.find? (fun e => e.1 == k) with
  | some e => some e.2
  | none => none

/-- `kv.put(key, value, { expirationTtl })`. -/
def kvPut (kv : KV) (k : String) (v : TokenData) : KV :=
  (k, v) :: kv

/-- Reading a fresh write returns it; other keys are unaffected. -/
theorem kvGet_kvPut (kv : KV) (k k' : String) (v : TokenData) :
    kvGet (kvPut kv k v) k' = if k == k' then some v else kvGet kv k' := by
  by_cases h : k = k'
  · subst h; simp [kvGet, kvPut, List.find?]
  · have hb : (k == k') = false := by simpa using h
    simp [kvGet, kvPut, List.find?, hb]

namespace KvTokenStore

/-- kvTokenStore.ts `load`: derive the key (which may throw), then read. -/
def load (kv : KV) (ids : TokenIdentifiers) : Except KeyError (Option TokenData) := do
  let k ← generateKey ids
  pure (kvGet kv k)

/-- kvTokenStore.ts `save`: derive the key (which may throw), then write. -/
def save (kv : KV) (ids : TokenIdentifiers) (data : TokenData) : Except KeyError KV := do
  let k ← generateKey ids
  pure (kvPut kv k data)

end KvTokenStore

/-- An error thrown by (or rejected from) an external collaborator call. -/
inductive JsError
  | thrown (msg : String)
deriving DecidableEq

/-- A log record; only warnings matter to the claims. -/
inductive LogEntry
  | warn (msg : String)
deriving DecidableEq

/-- kvTokenStore.ts `migrateIfNeeded`, parametrized by the outcome of the
underlying `sdkStore.migrate(fromIds, toIds)` call (an external SDK
capability): the code awaits that call with no try/catch around it, then
logs a warning when it reported `false`. The returned list is the log
output. -/
def migrateIfNeeded (migrateOutcome : Except JsError Bool) :
    Except JsError (List LogEntry) :=
  match migrateOutcome with
  | .error e => .error e
  | .ok true => .ok []
  | .ok false => .ok [.warn ("Token migration was not needed or failed")]

/-! ## OAuth handler endpoints (auth/handler.ts, unnamed source file)

The Hono request/response layer, the state codec (`decodeAndVerifyState`,
in auth/stateUtils, not under src/), and the SDK capabilities invoked by
the callback are external to the modelled code; each is represented by its
outcome, supplied as an oracle. The handler bodies below are translated
statement by statement from the source. -/

/-- The fields of the decoded AuthRequest that the handlers inspect. -/
structure AuthRequestInfo where
  clientId : Option String := none
  redirectUri : Option String := none
  scope : Option String := none
deriving DecidableEq

/-- The structured error kinds of auth/errors.ts that the handlers return. -/
inductive AuthErrorKind
  | missingClientId
  | missingState
  | invalidState
  | missingParameters
  | tokenExchange
  | authCallback
  | noUserId
  | authApproval
deriving DecidableEq

/-- Result of the approval-submission endpoint POST /authorize. -/
inductive ApproveResponse
  | errJson (e : AuthErrorKind)
  | redirectToProvider (ar : AuthRequestInfo)
deriving DecidableEq

/-- State decoded from the submitted approval form by
`parseRedirectApproval` (auth/cookies.ts, external to the modelled code). -/
structure ApprovalState where
  oauthReqInfo : Option AuthRequestInfo := none
deriving DecidableEq

/-- POST /authorize from auth/handler.ts, parametrized by the outcome of
`parseRedirectApproval` (a throw lands in the catch block of the endpoint, which
returns the AuthApproval error JSON). With a parsed state: a missing
`oauthReqInfo` yields the MissingState error; a falsy `clientId` or
`scope` yields the InvalidState error (note `redirectUri` is not examined
here); otherwise the handler calls `redirectToSchwab` with the embedded
AuthRequest. -/
def approveHandler (parsed : Except JsError ApprovalState) : ApproveResponse :=
  match parsed with
  | .error _ => .errJson .authApproval
  | .ok st =>
    match st.oauthReqInfo with
    | none => .errJson .missingState
    | some ar =>
      if !truthy ar.clientId || !truthy ar.scope then .errJson .invalidState
      else .redirectToProvider ar

/-- Downstream effects of the callback endpoint, in execution order. -/
inductive CbEvent
  | decodeState
  | exchangeCode
  | createClient
  | fetchIdentity
  | kvLoad (key : String)
  | kvPut (key : String)
  | completeAuthorization
deriving DecidableEq

/-- Result of the callback endpoint GET /callback. `errJson` is a
structured error produced by an explicit handler branch; `caughtAuth` is a
structured error produced by the final catch block of the endpoint from an
AuthError thrown inside the handler; `caughtExternal` likewise from an
error thrown by an external capability; `redirect` is the final
`Response.redirect(redirectTo)`. -/
inductive CbResponse
  | errJson (e : AuthErrorKind)
  | caughtAuth (e : AuthErrorKind)
  | caughtExternal (e : JsError)
  | redirect (target : String)
deriving DecidableEq

/-- Query parameters of the callback request. -/
structure CbInput where
  stateParam : Option String := none
  code : Option String := none
deriving DecidableEq

/-- Outcomes of the external capabilities the callback invokes.
`exchange` is `auth.exchangeCode(code, stateParam)`; on success it may have
persisted a token set through the `saveToken` closure the handler gave the
auth client (which writes under the clientId-derived key), recorded here as
the optional payload it saved. `fetchUserId` is the user-preference lookup
together with the projection `streamerInfo?.[0]?.schwabClientCorrelId`. -/
structure CbOracles where
  decodeState : Except JsError (Option AuthRequestInfo)
  exchange : Except JsError (Option TokenData)
  createClient : Except JsError Unit
  fetchUserId : Except JsError (Option String)
  complete : Except JsError String

/-- The dual-key persistence step of the callback (the try block that
loads the freshly exchanged token by `{ clientId }` and, when present,
saves it under `{ schwabUserId }` and then again under `{ clientId }`).
Any error inside the block is caught and only logged, leaving the store as
it was. Returns the resulting store and the KV events that occurred. -/
def dualKeyPersist (kv : KV) (clientIdFromState userIdFromSchwab : String) :
    KV × List CbEvent :=
  match KvTokenStore.load kv { clientId := some clientIdFromState } with
  | .error _ => (kv, [])
  | .ok none => (kv, [.kvLoad (tokenKey clientIdFromState)])
  | .ok (some t) =>
    match KvTokenStore.save kv { schwabUserId := some userIdFromSchwab } t with
    | .error _ => (kv, [.kvLoad (tokenKey clientIdFromState)])
    | .ok kv1 =>
      match KvTokenStore.save kv1 { clientId := some clientIdFromState } t with
      | .error _ =>
        (kv1, [.kvLoad (tokenKey clientIdFromState),
               .kvPut (tokenKey userIdFromSchwab)])
      | .ok kv2 =>
        (kv2, [.kvLoad (tokenKey clientIdFromState),
               .kvPut (tokenKey userIdFromSchwab),
               .kvPut (tokenKey clientIdFromState)])

/-- GET /callback from auth/handler.ts: missing/empty `state` or `code`
fails with MissingParameters before anything else runs; then the state is
decoded (null decode yields InvalidState, as does a falsy clientId,
redirectUri or scope on the decoded request); then the code exchange (a
throw is wrapped as a thrown TokenExchange error), client construction (a
throw is wrapped as AuthCallback), identity lookup (a throw is wrapped as
NoUserId, and a falsy extracted user id yields the NoUserId error JSON);
then the dual-key persistence step; finally `completeAuthorization` yields
the redirect target. Returns the response, the final KV store, and the
trace of downstream events. -/
def callbackHandler (inp : CbInput) (o : CbOracles) (kv0 : KV) :
    CbResponse × KV × List CbEvent :=
  if !truthy inp.stateParam || !truthy inp.code then
    (.errJson .missingParameters, kv0, [])
  else
    match o.decodeState with
    | .error e => (.caughtExternal e, kv0, [.decodeState])
    | .ok none => (.errJson .invalidState, kv0, [.decodeState])
    | .ok (some ar) =>
      if !truthy ar.clientId || !truthy ar.redirectUri || !truthy ar.scope then
        (.errJson .invalidState, kv0, [.decodeState])
      else
        let clientIdFromState := ar.clientId.getD ("")
        match o.exchange with
        | .error _ => (.caughtAuth .tokenExchange, kv0, [.decodeState, .exchangeCode])
        | .ok saved =>
          let kv1 := match saved with
            | some t => kvPut kv0 (tokenKey clientIdFromState) t
            | none => kv0
          let evs1 := [CbEvent.decodeState, CbEvent.exchangeCode] ++
            (match saved with
             | some _ => [CbEvent.kvPut (tokenKey clientIdFromState)]
             | none => [])
          match o.createClient with
          | .error _ => (.caughtAuth .authCallback, kv1, evs1 ++ [.createClient])
          | .ok _ =>
            match o.fetchUserId with
            | .error _ =>
              (.caughtAuth .noUserId, kv1, evs1 ++ [.createClient, .fetchIdentity])
            | .ok uid =>
              if truthy uid then
                let pr := dualKeyPersist kv1 clientIdFromState (uid.getD (""))
                match o.complete with
                | .error e =>
                  (.caughtExternal e, pr.1,
                   evs1 ++ [.createClient, .fetchIdentity] ++ pr.2 ++
                     [.completeAuthorization])
                | .ok r =>
                  (.redirect r, pr.1,
                   evs1 ++ [.createClient, .fetchIdentity] ++ pr.2 ++
                     [.completeAuthorization])
              else
                (.errJson .noUserId, kv1, evs1 ++ [.createClient, .fetchIdentity])

/-! ## Session actor (src/index.ts)

### Initialization ordering

`MyMCP.init` runs on the single-threaded JS event loop. Its spine of
observable steps is: register the status tool, construct the ETM token
manager (reused when already present), start `this.tokenManager.initialize()`
— the source invokes it WITHOUT `await` (`const etmInitSuccess =
this.tokenManager.initialize()`), so only the start of that asynchronous
credential load is ordered by the spine — then construct the API client
with `createApiClient`, then register the tool set. The completion of the load
is a separate event-loop task: a valid execution places it at any point
strictly after its start (at an intervening suspension point or after the
spine finishes). -/

/-- Observable events of one `MyMCP.init` run. `etmLoadStarted` and
`etmLoadCompleted` are the start and the completion of the asynchronous
`tokenManager.initialize()` credential load. -/
inductive InitEvent
  | statusToolRegistered
  | etmConstructed
  | etmLoadStarted
  | etmLoadCompleted
  | clientConstructed
  | toolsRegistered
deriving DecidableEq, BEq

/-- The synchronous spine of `MyMCP.init` as written (lines 55, 138-145,
166, 181, 197 of src/index.ts): the unawaited load contributes only its
start. -/
def initSyncSpine : List InitEvent :=
  [.statusToolRegistered, .etmConstructed, .etmLoadStarted,
   .clientConstructed, .toolsRegistered]

/-- The execution trace in which the pending load completion runs at
position `p` of the spine. -/
def initTraceAt (p : Nat) : List InitEvent :=
  initSyncSpine.take p ++ [.etmLoadCompleted] ++ initSyncSpine.drop p

/-- A schedule is valid when the completion runs strictly after its start
(the start sits at spine index 2). -/
def validInitSchedule (p : Nat) : Bool :=
  decide (3 ≤ p) && decide (p ≤ initSyncSpine.length)

/-- Index of the first occurrence of an event in a trace. -/
def eventPos (tr : List InitEvent) (e : InitEvent) : Nat :=
  tr.indexOf e

/-! ### Reconnection recovery (`MyMCP.onReconnect`)

The token manager and API client are external instances; what the claims
track is whether `onReconnect` replaces them, so the actor state carries a
generation counter for each. A full `init` run reuses an existing token
manager (`if (!this.tokenManager)`) but always constructs a fresh client. -/

/-- Instance identities owned by the session actor. -/
structure ActorState where
  tmGeneration : Nat
  clientGeneration : Nat
deriving DecidableEq

/-- State effect of a completed `MyMCP.init` run: a token manager is
constructed only when absent; the API client is always rebuilt. The state
effect of an init run that throws partway is not modelled (no claim
depends on it); a failed run is modelled as leaving the generations as
they were. -/
def initStateEffect (st : ActorState) (hasTM : Bool) : ActorState :=
  { tmGeneration := if hasTM then st.tmGeneration else st.tmGeneration + 1
    clientGeneration := st.clientGeneration + 1 }

/-- Recovery actions of one `onReconnect` run, in execution order. -/
inductive RcEvent
  | accessTokenProbe
  | etmReload
  | fullInitRun
  | emergencyInitRun
deriving DecidableEq

/-- Outcomes of the external calls `onReconnect` can make:
`getAccessToken` (tier 1 liveness probe; may throw, may return a falsy
token), `etmReload` (tier 2, the awaited re-init of the token manager; may
throw or report false), and the outcomes of the first and of the
emergency `await this.init()` run in this execution (`init` rethrows its
failures). -/
structure ReconnectOracles where
  hasTokenManager : Bool
  getAccessToken : Except JsError (Option String)
  etmReload : Except JsError Bool
  fullInit : Except JsError Unit
  emergencyInit : Except JsError Unit

/-- Tier 1 succeeds when `getAccessToken` returns a truthy token
(`if (token) return true`); a throw is caught and logged. -/
def probeSucceeds (o : ReconnectOracles) : Bool :=
  match o.getAccessToken with
  | .ok tok => truthy tok
  | .error _ => false

/-- Tier 2 succeeds when the awaited re-init reports true
(`if (initResult) return true`); a throw is caught and logged. -/
def reloadSucceeds (o : ReconnectOracles) : Bool :=
  match o.etmReload with
  | .ok b => b
  | .error _ => false

/-- `MyMCP.onReconnect` from src/index.ts (lines 232-323). With no token
manager yet, it runs a full init and returns true; otherwise tier 1
(access-token probe) and tier 2 (token-manager reload) are each tried
inside their own try/catch; then a full init is awaited and true returned.
A throw from that init lands in the surrounding catch block, which runs
one emergency init: success returns true, a second throw returns false.
Every branch returns a boolean; nothing escapes the outer catch. (The
state-logging try block at lines 280-294 has no modelled effect.) -/
def onReconnect (o : ReconnectOracles) (st : ActorState) :
    Except JsError Bool × ActorState × List RcEvent :=
  if !o.hasTokenManager then
    match o.fullInit with
    | .ok _ => (.ok true, initStateEffect st false, [.fullInitRun])
    | .error _ =>
      match o.emergencyInit with
      | .ok _ => (.ok true, initStateEffect st false, [.fullInitRun, .emergencyInitRun])
      | .error _ => (.ok false, st, [.fullInitRun, .emergencyInitRun])
  else if probeSucceeds o then
    (.ok true, st, [.accessTokenProbe])
  else if reloadSucceeds o then
    (.ok true, st, [.accessTokenProbe, .etmReload])
  else
    match o.fullInit with
    | .ok _ =>
      (.ok true, initStateEffect st true, [.accessTokenProbe, .etmReload, .fullInitRun])
    | .error _ =>
      match o.emergencyInit with
      | .ok _ =>
        (.ok true, initStateEffect st true,
         [.accessTokenProbe, .etmReload, .fullInitRun, .emergencyInitRun])
      | .error _ =>
        (.ok false, st,
         [.accessTokenProbe, .etmReload, .fullInitRun, .emergencyInitRun])

/-! ### Session identity backfill (`MyMCP.init`, lines 82-127) -/

/-- Durable-object props: only the ids used for token key derivation. -/
structure MyMCPProps where
  schwabUserId : Option String := none
  clientId : Option String := none
deriving DecidableEq

/-- The one-time backfill in init: `if (!this.props.clientId)
this.props.clientId = this.validatedConfig.SCHWAB_CLIENT_ID`. -/
def backfillClientId (props : MyMCPProps) (cfgClientId : String) : MyMCPProps :=
  if truthy props.clientId then props else { props with clientId := some cfgClientId }

/-- `getTokenIds` from init: the identity that the load/save closures of the
session
pass to the KV token store on every call. -/
def getTokenIds (props : MyMCPProps) : TokenIdentifiers :=
  { schwabUserId := props.schwabUserId, clientId := props.clientId }

/-! ## Theorems -/

/-- Whether a modelled JS computation ended in a thrown error. -/
def raises {ε α : Type} : Except ε α → Bool
  | .error _ => true
  | .ok _ => false

/-- C2 (counterexample): `migrateIfNeeded` does not wrap the awaited
underlying migrate call in any try/catch, so a rejection from it
propagates to the caller — refuting the claim that `migrateIfNeeded`
never raises on any failure of the underlying migrate. -/
theorem migrateIfNeeded_propagates_migrate_error :
    raises (migrateIfNeeded (.error (.thrown ("kv write failed")))) = true := rfl

/-- C2 (amended): whenever the underlying migrate call completes with a
boolean, `migrateIfNeeded` returns normally — on `true` silently, on
`false` (no-op or reported failure) with only a logged warning; only a
thrown error from the underlying migrate propagates. -/
theorem migrateIfNeeded_boolean_outcome_never_raises (b : Bool) :
    raises (migrateIfNeeded (.ok b)) = false ∧
    (b = true → migrateIfNeeded (.ok b) = .ok []) ∧
    (b = false →
      migrateIfNeeded (.ok b) =
        .ok [.warn ("Token migration was not needed or failed")]) := by
  cases b <;> simp [migrateIfNeeded, raises]

/-- C2 (witness): the no-op outcome returns normally with one warning. -/
theorem migrateIfNeeded_boolean_outcome_witness :
    raises (migrateIfNeeded (.ok false)) = false ∧
    migrateIfNeeded (.ok false) =
      .ok [.warn ("Token migration was not needed or failed")] :=
  ⟨(migrateIfNeeded_boolean_outcome_never_raises false).1,
   (migrateIfNeeded_boolean_outcome_never_raises false).2.2 rfl⟩

/-- C6 (counterexample): an identity whose canonical id is present but
empty (and whose fallback id is absent) fails with IdentityMissing, even
though the canonical id is present — key derivation tests JS truthiness,
not presence, refuting the claim as stated. -/
theorem generateKey_present_empty_canonical_cex :
    ({ schwabUserId := some (""), clientId := none } : TokenIdentifiers).schwabUserId.isSome
        = true ∧
    generateKey { schwabUserId := some (""), clientId := none } =
      .error .identityMissing := by
  exact ⟨rfl, rfl⟩

/-- C6 (amended): key derivation returns a key built from the canonical id
when it is present AND non-empty, else from the fallback id when that one
is present and non-empty; when neither identifier is a non-empty string it
fails with IdentityMissing — in particular the empty identity fails. -/
theorem generateKey_truthy_precedence :
    (∀ ids u, ids.schwabUserId = some u → u ≠ "" →
       generateKey ids = .ok (tokenKey u)) ∧
    (∀ ids c, truthy ids.schwabUserId = false → ids.clientId = some c → c ≠ "" →
       generateKey ids = .ok (tokenKey c)) ∧
    (∀ ids, truthy ids.schwabUserId = false → truthy ids.clientId = false →
       generateKey ids = .error .identityMissing) ∧
    generateKey {} = .error .identityMissing := by
  refine ⟨?_, ?_, ?_, rfl⟩
  · intro ids u hu hne
    have ht : truthy (some u) = true := by simp [truthy, hne]
    simp [generateKey, hu, ht]
  · intro ids c hs hc hne
    have ht : truthy (some c) = true := by simp [truthy, hne]
    simp [generateKey, hs, hc, ht]
  · intro ids hs hc
    simp [generateKey, hs, hc]

/-- C6 (witness): precedence of the canonical id, fallback when the
canonical id is empty, and failure when both are untruthy. -/
theorem generateKey_truthy_precedence_witness :
    generateKey { schwabUserId := some ("u1"), clientId := some ("c1") } =
      .ok (tokenKey ("u1")) ∧
    generateKey { schwabUserId := some (""), clientId := some ("c1") } =
      .ok (tokenKey ("c1")) ∧
    generateKey { schwabUserId := none, clientId := some ("") } =
      .error .identityMissing :=
  ⟨generateKey_truthy_precedence.1 _ ("u1") rfl (by decide),
   generateKey_truthy_precedence.2.1 _ ("c1") (by decide) rfl (by decide),
   generateKey_truthy_precedence.2.2.1 _ (by decide) (by decide)⟩

/-- C7 (counterexample): on approval submission, a parsed payload with the
embedded pending-authorization state missing fails with MissingState, not
InvalidState; and a payload whose state lacks `redirectUri` (with clientId
and scope present) is not rejected at all but transitions to the provider
redirect — refuting the claim as stated. -/
theorem approve_state_validation_cex :
    approveHandler (.ok { oauthReqInfo := none }) = .errJson .missingState ∧
    AuthErrorKind.missingState ≠ AuthErrorKind.invalidState ∧
    approveHandler (.ok { oauthReqInfo := some ⟨some ("c1"), none, some ("readonly")⟩ }) =
      .redirectToProvider ⟨some ("c1"), none, some ("readonly")⟩ :=
  ⟨rfl, by decide, rfl⟩

/-- C7 (amended): on approval submission with a decodable payload, a
missing embedded pending-authorization state fails with MissingState; an
embedded state whose clientId or scope is missing or empty fails with
InvalidState (redirectUri is not validated at this endpoint); otherwise
the endpoint transitions to the provider redirect. -/
theorem approve_state_validation (parsed : Except JsError ApprovalState) :
    (∀ st, parsed = .ok st → st.oauthReqInfo = none →
       approveHandler parsed = .errJson .missingState) ∧
    (∀ st ar, parsed = .ok st → st.oauthReqInfo = some ar →
       (truthy ar.clientId = false ∨ truthy ar.scope = false) →
       approveHandler parsed = .errJson .invalidState) ∧
    (∀ st ar, parsed = .ok st → st.oauthReqInfo = some ar →
       truthy ar.clientId = true → truthy ar.scope = true →
       approveHandler parsed = .redirectToProvider ar) := by
  refine ⟨?_, ?_, ?_⟩
  · intro st h hn; subst h; simp [approveHandler, hn]
  · intro st ar h ha hf; subst h
    rcases hf with hf | hf <;> simp [approveHandler, ha, hf]
  · intro st ar h ha h1 h2; subst h
    simp [approveHandler, ha, h1, h2]

/-- C7 (witness): the three approval outcomes at concrete payloads. -/
theorem approve_state_validation_witness :
    approveHandler (.ok { oauthReqInfo := none }) = .errJson .missingState ∧
    approveHandler
        (.ok { oauthReqInfo := some ⟨some (""), some ("https://cb"), some ("readonly")⟩ }) =
      .errJson .invalidState ∧
    approveHandler
        (.ok { oauthReqInfo := some ⟨some ("c1"), some ("https://cb"), some ("readonly")⟩ }) =
      .redirectToProvider ⟨some ("c1"), some ("https://cb"), some ("readonly")⟩ :=
  ⟨(approve_state_validation _).1 _ rfl rfl,
   (approve_state_validation _).2.1 _ _ rfl rfl (Or.inl (by decide)),
   (approve_state_validation _).2.2 _ _ rfl rfl (by decide) (by decide)⟩

/-- A load raises exactly when key derivation does. -/
theorem load_raises_iff_keyError (kv : KV) (ids : TokenIdentifiers) :
    raises (KvTokenStore.load kv ids) = raises (generateKey ids) := by
  cases h : generateKey ids <;> simp [KvTokenStore.load, h, raises]

/-- A save raises exactly when key derivation does. -/
theorem save_raises_iff_keyError (kv : KV) (ids : TokenIdentifiers) (t : TokenData) :
    raises (KvTokenStore.save kv ids t) = raises (generateKey ids) := by
  cases h : generateKey ids <;> simp [KvTokenStore.save, h, raises]

/-- The backfill never touches the canonical id. -/
theorem backfill_schwabUserId (props : MyMCPProps) (cfg : String) :
    (backfillClientId props cfg).schwabUserId = props.schwabUserId := by
  unfold backfillClientId; split <;> rfl

/-- After the backfill with a non-empty configured client id, the fallback
id is always truthy. -/
theorem backfill_clientId_truthy (props : MyMCPProps) (cfg : String) (h : cfg ≠ "") :
    truthy (backfillClientId props cfg).clientId = true := by
  unfold backfillClientId
  cases hp : truthy props.clientId with
  | true => simp [hp]
  | false => simp [hp, truthy, h]

/-- C10: after init backfills the fallback client id from the validated
configuration (whose SCHWAB_CLIENT_ID is a non-empty string — config
validation lives outside the modelled sources), the identity produced by
`getTokenIds`, which the load and save closures of the session pass to the
KV token store on every call, always derives a key successfully: the
IdentityMissing branch is unreachable for every load or save of an
initialized session actor. -/
theorem initialized_session_key_derivation_total
    (props : MyMCPProps) (cfgClientId : String) (hcfg : cfgClientId ≠ "") :
    raises (generateKey (getTokenIds (backfillClientId props cfgClientId))) = false ∧
    (∀ kv, raises
       (KvTokenStore.load kv (getTokenIds (backfillClientId props cfgClientId))) = false) ∧
    (∀ kv t, raises
       (KvTokenStore.save kv (getTokenIds (backfillClientId props cfgClientId)) t) = false) := by
  have hcid : truthy (getTokenIds (backfillClientId props cfgClientId)).clientId = true := by
    simpa [getTokenIds] using backfill_clientId_truthy props cfgClientId hcfg
  have hgen : raises (generateKey (getTokenIds (backfillClientId props cfgClientId))) = false := by
    cases hs : truthy (getTokenIds (backfillClientId props cfgClientId)).schwabUserId with
    | true => simp [generateKey, hs, raises]
    | false => simp [generateKey, hs, hcid, raises]
  refine ⟨hgen, ?_, ?_⟩
  · intro kv; rw [load_raises_iff_keyError]; exact hgen
  · intro kv t; rw [save_raises_iff_keyError]; exact hgen

/-- C10 (witness): a fresh session with empty props and the configured
client id derives keys and loads/saves without IdentityMissing. -/
theorem initialized_session_key_derivation_witness :
    raises (generateKey (getTokenIds (backfillClientId {} ("cfg-client")))) = false ∧
    raises (KvTokenStore.load [] (getTokenIds (backfillClientId {} ("cfg-client")))) = false ∧
    raises (KvTokenStore.save [] (getTokenIds (backfillClientId {} ("cfg-client"))) ("tok"))
      = false :=
  ⟨(initialized_session_key_derivation_total {} ("cfg-client") (by decide)).1,
   (initialized_session_key_derivation_total {} ("cfg-client") (by decide)).2.1 [],
   (initialized_session_key_derivation_total {} ("cfg-client") (by decide)).2.2 [] ("tok")⟩

/-- C1: when a credential is present under the fallback (client-id) key at
persist time, the dual-key persistence step of the callback writes it
first under the canonical (schwabUserId) key and then under the fallback
key, and afterwards loading by the canonical identity and loading by the
fallback identity both return that identical credential payload. -/
theorem dualKeyPersist_both_keys_canonical_first
    (kv : KV) (c u : String) (t : TokenData)
    (hc : c ≠ "") (hu : u ≠ "")
    (hcur : kvGet kv (tokenKey c) = some t) :
    KvTokenStore.load (dualKeyPersist kv c u).1 { schwabUserId := some u } =
      .ok (some t) ∧
    KvTokenStore.load (dualKeyPersist kv c u).1 { clientId := some c } =
      .ok (some t) ∧
    (dualKeyPersist kv c u).2 =
      [.kvLoad (tokenKey c), .kvPut (tokenKey u), .kvPut (tokenKey c)] := by
  have htc : truthy (some c) = true := by simp [truthy, hc]
  have htu : truthy (some u) = true := by simp [truthy, hu]
  have hgc : generateKey { clientId := some c } = .ok (tokenKey c) := by
    simp [generateKey, truthy, hc]
  have hgu : generateKey { schwabUserId := some u } = .ok (tokenKey u) := by
    simp [generateKey, truthy, hu]
  have hload : KvTokenStore.load kv { clientId := some c } = .ok (some t) := by
    simp [KvTokenStore.load, hgc, hcur]
  have hdp : dualKeyPersist kv c u =
      (kvPut (kvPut kv (tokenKey u) t) (tokenKey c) t,
       [.kvLoad (tokenKey c), .kvPut (tokenKey u), .kvPut (tokenKey c)]) := by
    simp [dualKeyPersist, hload, KvTokenStore.save, hgc, hgu]
  rw [hdp]
  refine ⟨?_, ?_, rfl⟩
  · by_cases h : tokenKey c = tokenKey u
    · simp [KvTokenStore.load, hgu, kvGet_kvPut, h]
    · have hb : (tokenKey c == tokenKey u) = false := by simpa using h
      simp [KvTokenStore.load, hgu, kvGet_kvPut, hb]
  · simp [KvTokenStore.load, hgc, kvGet_kvPut]

/-- C1 (witness): fallback id c1, canonical id u1, credential tok stored
under the fallback key. -/
theorem dualKeyPersist_both_keys_witness :
    KvTokenStore.load (dualKeyPersist [(tokenKey ("c1"), ("tok"))] ("c1") ("u1")).1
        { schwabUserId := some ("u1") } = .ok (some ("tok")) ∧
    KvTokenStore.load (dualKeyPersist [(tokenKey ("c1"), ("tok"))] ("c1") ("u1")).1
        { clientId := some ("c1") } = .ok (some ("tok")) ∧
    (dualKeyPersist [(tokenKey ("c1"), ("tok"))] ("c1") ("u1")).2 =
      [.kvLoad (tokenKey ("c1")), .kvPut (tokenKey ("u1")), .kvPut (tokenKey ("c1"))] :=
  dualKeyPersist_both_keys_canonical_first _ ("c1") ("u1") ("tok")
    (by decide) (by decide) (by decide)

/-- C3 (code bug): the claim — and the source comments at src/index.ts
lines 162-169, which announce that the ETM is initialized to load tokens
BEFORE creating the client and log its boolean result — require the
asynchronous credential load started by `tokenManager.initialize()` to
complete before `createApiClient` runs; but the source does not `await`
that call (unlike tier 2 of onReconnect, which awaits the very same call),
so the execution in which the load completes only after the init spine —
the normal execution whenever the KV read actually suspends — is a valid
schedule, and in it the API client is constructed before the credential
load completes. -/
theorem init_client_construction_races_etm_load :
    validInitSchedule 5 = true ∧
    initTraceAt 5 =
      [.statusToolRegistered, .etmConstructed, .etmLoadStarted,
       .clientConstructed, .toolsRegistered, .etmLoadCompleted] ∧
    eventPos (initTraceAt 5) .clientConstructed <
      eventPos (initTraceAt 5) .etmLoadCompleted := by
  refine ⟨by decide, by decide, by decide⟩

/-- C4: a callback request with a missing (or empty) `state` or `code`
query parameter fails with MissingParameters, leaves the store untouched,
and makes no downstream calls at all — no state decode, no code exchange,
no identity lookup, no persistence. -/
theorem callback_missing_params_no_downstream
    (inp : CbInput) (o : CbOracles) (kv : KV)
    (h : inp.stateParam = none ∨ inp.code = none) :
    callbackHandler inp o kv = (.errJson .missingParameters, kv, []) := by
  rcases h with h | h
  · simp [callbackHandler, h, truthy]
  · simp [callbackHandler, h, truthy]

/-- C4 (witness): a callback request with `state` present but `code`
missing, against oracles that would all succeed. -/
theorem callback_missing_params_witness :
    callbackHandler { stateParam := some ("signed-state"), code := none }
      { decodeState := .ok (some ⟨some ("c1"), some ("https://cb"), some ("readonly")⟩),
        exchange := .ok none, createClient := .ok (),
        fetchUserId := .ok (some ("u1")), complete := .ok ("https://done") } [] =
      (.errJson .missingParameters, [], []) :=
  callback_missing_params_no_downstream _ _ _ (Or.inr rfl)

/-- C5: when a token manager exists and every recovery tier fails — the
liveness probe throws or yields a falsy token, the soft reload throws or
reports false, and both full-reinitialization attempts of this execution
(the tier-3 init and the emergency init run by the outer catch) throw —
onReconnect returns false and raises nothing; and, for every combination
of outcomes whatsoever, onReconnect never raises. -/
theorem onReconnect_all_tiers_fail_false_no_raise
    (o : ReconnectOracles) (st : ActorState)
    (hTM : o.hasTokenManager = true)
    (hprobe : probeSucceeds o = false)
    (hreload : reloadSucceeds o = false)
    (hinit : raises o.fullInit = true)
    (hemerg : raises o.emergencyInit = true) :
    onReconnect o st =
      (.ok false, st,
       [.accessTokenProbe, .etmReload, .fullInitRun, .emergencyInitRun]) ∧
    (∀ o' st', raises (onReconnect o' st').1 = false) := by
  constructor
  · cases hfi : o.fullInit with
    | ok v => rw [hfi] at hinit; simp [raises] at hinit
    | error e =>
      cases hem : o.emergencyInit with
      | ok v => rw [hem] at hemerg; simp [raises] at hemerg
      | error e2 => simp [onReconnect, hTM, hprobe, hreload, hfi, hem]
  · intro o' st'
    by_cases h1 : o'.hasTokenManager = true
    · by_cases h2 : probeSucceeds o' = true
      · simp [onReconnect, h1, h2, raises]
      · have h2' : probeSucceeds o' = false := by
          revert h2; cases probeSucceeds o' <;> simp
        by_cases h3 : reloadSucceeds o' = true
        · simp [onReconnect, h1, h2', h3, raises]
        · have h3' : reloadSucceeds o' = false := by
            revert h3; cases reloadSucceeds o' <;> simp
          cases hfi : o'.fullInit with
          | ok v => simp [onReconnect, h1, h2', h3', hfi, raises]
          | error e =>
            cases hem : o'.emergencyInit with
            | ok v => simp [onReconnect, h1, h2', h3', hfi, hem, raises]
            | error e2 => simp [onReconnect, h1, h2', h3', hfi, hem, raises]
    · have h1' : o'.hasTokenManager = false := by
        revert h1; cases o'.hasTokenManager <;> simp
      cases hfi : o'.fullInit with
      | ok v => simp [onReconnect, h1', hfi, raises]
      | error e =>
        cases hem : o'.emergencyInit with
        | ok v => simp [onReconnect, h1', hfi, hem, raises]
        | error e2 => simp [onReconnect, h1', hfi, hem, raises]

/-- C5 (witness): probe throws, reload reports false, both init attempts
throw: onReconnect returns false without raising. -/
theorem onReconnect_all_tiers_fail_witness :
    onReconnect
      { hasTokenManager := true, getAccessToken := .error (.thrown ("probe down")),
        etmReload := .ok false, fullInit := .error (.thrown ("init failed")),
        emergencyInit := .error (.thrown ("init failed again")) } ⟨0, 0⟩ =
      (.ok false, ⟨0, 0⟩,
       [.accessTokenProbe, .etmReload, .fullInitRun, .emergencyInitRun]) :=
  (onReconnect_all_tiers_fail_false_no_raise
    { hasTokenManager := true, getAccessToken := .error (.thrown ("probe down")),
      etmReload := .ok false, fullInit := .error (.thrown ("init failed")),
      emergencyInit := .error (.thrown ("init failed again")) } ⟨0, 0⟩
    rfl rfl rfl rfl rfl).1

/-- C8: when the existing token manager answers the liveness probe with a
truthy access token, onReconnect returns true immediately: the actor state
(token manager and API client instances) is returned unchanged and the
trace shows that neither the token-manager reload nor any full init ran. -/
theorem onReconnect_probe_success_frame
    (o : ReconnectOracles) (st : ActorState)
    (hTM : o.hasTokenManager = true)
    (hprobe : probeSucceeds o = true) :
    onReconnect o st = (.ok true, st, [.accessTokenProbe]) ∧
    RcEvent.etmReload ∉ (onReconnect o st).2.2 ∧
    RcEvent.fullInitRun ∉ (onReconnect o st).2.2 ∧
    RcEvent.emergencyInitRun ∉ (onReconnect o st).2.2 := by
  have h : onReconnect o st = (.ok true, st, [.accessTokenProbe]) := by
    simp [onReconnect, hTM, hprobe]
  refine ⟨h, ?_, ?_, ?_⟩ <;> simp [h]

/-- C8 (witness): a live access token ends recovery at tier 1 with the
actor state untouched. -/
theorem onReconnect_probe_success_witness :
    onReconnect
      { hasTokenManager := true, getAccessToken := .ok (some ("live-token")),
        etmReload := .ok true, fullInit := .ok (), emergencyInit := .ok () } ⟨3, 7⟩ =
      (.ok true, ⟨3, 7⟩, [.accessTokenProbe]) :=
  (onReconnect_probe_success_frame
    { hasTokenManager := true, getAccessToken := .ok (some ("live-token")),
      etmReload := .ok true, fullInit := .ok (), emergencyInit := .ok () } ⟨3, 7⟩
    rfl rfl).1

/-- C9: in a callback run whose upstream steps succeed (state decodes with
all required fields, the exchange succeeds without persisting anything,
the client is built, a truthy canonical user id is found) but where no
credential record exists under the fallback key at persist time, the
dual-key persistence step performs neither write — the store comes out
exactly as it went in and the trace holds no kvPut — no error is raised,
and the flow still proceeds through completeAuthorization to the final
redirect. -/
theorem callback_persist_absent_noop
    (inp : CbInput) (o : CbOracles) (kv : KV) (ar : AuthRequestInfo) (c uid r : String)
    (hs : truthy inp.stateParam = true) (hcode : truthy inp.code = true)
    (hdec : o.decodeState = .ok (some ar))
    (hcid : ar.clientId = some c) (hc : c ≠ "")
    (hred : truthy ar.redirectUri = true) (hsc : truthy ar.scope = true)
    (hex : o.exchange = .ok none)
    (hcc : o.createClient = .ok ())
    (hfid : o.fetchUserId = .ok (some uid)) (huid : uid ≠ "")
    (hcomp : o.complete = .ok r)
    (habsent : kvGet kv (tokenKey c) = none) :
    callbackHandler inp o kv =
      (.redirect r, kv,
       [.decodeState, .exchangeCode, .createClient, .fetchIdentity,
        .kvLoad (tokenKey c), .completeAuthorization]) := by
  have htc : truthy (some c) = true := by simp [truthy, hc]
  have hct : truthy ar.clientId = true := by rw [hcid]; exact htc
  have hgc : generateKey { clientId := some c } = .ok (tokenKey c) := by
    simp [generateKey, truthy, hc]
  have hdp : dualKeyPersist kv c uid = (kv, [.kvLoad (tokenKey c)]) := by
    simp [dualKeyPersist, KvTokenStore.load, hgc, habsent]
  have hut : truthy (some uid) = true := by simp [truthy, huid]
  simp [callbackHandler, hs, hcode, hdec, hct, hred, hsc, hcid, hex, hcc, hfid,
        htc, hut, hcomp, hdp]

/-- C9 (witness): empty store, all upstream oracles succeed, exchange
persists nothing: the callback redirects and the store stays empty. -/
theorem callback_persist_absent_witness :
    callbackHandler { stateParam := some ("signed-state"), code := some ("auth-code") }
      { decodeState := .ok (some ⟨some ("c1"), some ("https://cb"), some ("readonly")⟩),
        exchange := .ok none, createClient := .ok (),
        fetchUserId := .ok (some ("u1")), complete := .ok ("https://done") } [] =
      (.redirect ("https://done"), [],
       [.decodeState, .exchangeCode, .createClient, .fetchIdentity,
        .kvLoad (tokenKey ("c1")), .completeAuthorization]) :=
  callback_persist_absent_noop _ _ _ _ ("c1") ("u1") ("https://done")
    rfl rfl rfl rfl (by decide) rfl rfl rfl rfl rfl (by decide) rfl rfl

end SchwabMCP
